import Mathlib

/-!
Verification development for the `simple-y-crdt-editor` relay server
(`src/server/src/editor.rs`).  The Rust code is shallowly embedded:

* the Relay Core command loop (`spawn_server`, editor.rs:244-350) becomes a
  step function `serverStep` over an explicit `ServerData` state plus a list
  of observable effects (mailbox sends, broadcast publishes, gauge updates,
  task aborts) and a run function `serverRun` folding it over a command list;
* `ClientHandle::send` (editor.rs:62-68, `mpsc::Sender::try_send`) becomes a
  bounded-queue transition `ClientHandle.send`;
* `ServerHandle::send` (editor.rs:206-210, awaiting `mpsc::Sender::send` and
  panicking when the channel is closed) becomes `ServerHandle.send` over an
  explicit channel state;
* the per-session outbound pump (`spawn_client`, editor.rs:148-169) becomes
  `connectionSendLoop` over scripts of the values the two `recv()` calls
  return;
* the supervisor / pump task structure of `spawn_client` together with
  `ClientHandle::drop` (editor.rs:71-77, 119-183) becomes a small labelled
  transition system `SessionStep` over `SessionTasks`.

The external document engine (`yrs`) is opaque: the protocol handler is a
parameter `Handler` returning the new shared state, the deltas the mutation
observers publish while it runs, and either the reply payloads or a protocol
error, exactly the shape of `protocol.handle` at editor.rs:325 combined with
the observers wired at editor.rs:266-299.
-/

namespace YEditor

/-- Opaque byte payload (`Vec<u8>`). -/
abbrev Payload := List Nat

/-- Client identifier (`uuid::Uuid` in the source; any decidable id works). -/
abbrev ClientId := Nat

/-- Identifier of a spawned tokio task, used to record `JoinHandle::abort`. -/
abbrev TaskId := Nat

/-- Opaque state of the external document/presence engine (the `Awareness`
owned by the Relay Core).  The engine itself is out of scope; the model only
threads this value through the parametric protocol handler. -/
abbrev SharedState := Nat

/-- Model of `ClientHandle` (editor.rs:54-59).  The source handle stores the
sender half of the per-session mpsc channel; the model keeps the queue
content and capacity of that channel inline so that `try_send` is a pure
transition, plus the supervisor `JoinHandle` as a task id. -/
structure ClientHandle where
  id : ClientId
  mailbox : List Payload
  capacity : Nat
  supervisor : TaskId
deriving Repr, DecidableEq

/-- Model of `ClientHandle::send` (editor.rs:62-68): `try_send` on the
bounded mailbox channel.  On a full queue it returns immediately with an
error (`TrySendError::Full`) and the message is dropped; it never waits. -/
def ClientHandle.send (h : ClientHandle) (msg : Payload) :
    Except Unit ClientHandle :=
  if h.mailbox.length < h.capacity then
    .ok { h with mailbox := h.mailbox ++ [msg] }
  else
    .error ()

/-- Observable effects of Relay Core command processing. -/
inductive Effect where
  | mailboxSend (target : ClientId) (payload : Payload)
  | mailboxFull (target : ClientId)
  | broadcast (payload : Payload)
  | gaugeDecrement
  | abortTask (t : TaskId)
deriving Repr, DecidableEq

/-- Effects of `ClientHandle::drop` (editor.rs:71-77): decrement the
`editor.connections.count` gauge and abort the supervisor task. -/
def ClientHandle.dropEffects (h : ClientHandle) : List Effect :=
  [Effect.gaugeDecrement, Effect.abortTask h.supervisor]

/-- Model of `ToServerMessage` (editor.rs:226-231). -/
inductive ToServerMessage where
  | Join (handle : ClientHandle)
  | Leave (id : ClientId)
  | Message (id : ClientId) (input : Payload)
  | Stop
deriving Repr, DecidableEq

/-- The session registry `clients: HashMap<ClientId, ClientHandle>`
(editor.rs:222), modelled as an association list with unique keys.  Order is
irrelevant: the source map guarantees none. -/
abbrev Registry := List (ClientId × ClientHandle)

/-- Registry lookup, `clients.get(&id)` or `get_mut(&id)`, as an option. -/
def lookupClient (cs : Registry) (id : ClientId) : Option ClientHandle :=
  (cs.find? (fun p => p.1 == id)).map (fun p => p.2)

/-- Registry removal, `clients.remove(&id)` (editor.rs:338): drop the
entry if present. -/
def removeClient (cs : Registry) (id : ClientId) : Registry :=
  cs.filter (fun p => !(p.1 == id))

/-- Registry insertion, `clients.insert(id, h)` (editor.rs:313): replaces
any existing entry for the same key. -/
def insertClient (cs : Registry) (id : ClientId) (h : ClientHandle) :
    Registry :=
  removeClient cs id ++ [(id, h)]

/-- Registry update in place: records the mutation of the handle found by
`get_mut` (its mailbox queue changes when replies are enqueued). -/
def updateClient (cs : Registry) (id : ClientId) (h : ClientHandle) :
    Registry :=
  cs.map (fun p => if p.1 == id then (id, h) else p)

/-- Registry well-formedness: at most one record per id. -/
def RegOk (cs : Registry) : Prop :=
  ∀ k, (cs.filter (fun p => p.1 == k)).length ≤ 1

/-- Model of `ServerData` (editor.rs:221-224). -/
structure ServerData where
  clients : Registry
  awareness : SharedState
deriving Repr, DecidableEq

/-- Outcome of one invocation of the opaque protocol handler
`protocol.handle(&data.awareness, &input)` (editor.rs:325).  `state` is the
shared state after any side-effect mutation; `broadcasts` are the deltas the
mutation observers (editor.rs:266-299) publish on the broadcast bus while
the handler runs; `replies` is `Ok(direct replies)` or a protocol error. -/
structure HandlerOutcome where
  state : SharedState
  broadcasts : List Payload
  replies : Except Unit (List Payload)

/-- The opaque protocol handler, a parameter of the Relay Core model. -/
abbrev Handler := SharedState → Payload → HandlerOutcome

/-- Result of `EncoderV1::new().to_vec()` at editor.rs:307-308: a freshly
created V1 encoder with nothing written encodes to the empty byte vector.
The handshake code never feeds the encoder, so this is always `[]`. -/
def emptyEncoderPayload : Payload := []

/-- Result of processing one command in the Relay Core loop:
either the loop continues with a new state, or it breaks out (`Stop`),
or the task dies on a panic (the `unwrap()` at editor.rs:326). -/
inductive StepResult where
  | next (d : ServerData) (effects : List Effect)
  | stopped (effects : List Effect)
  | panicked (effects : List Effect)
deriving Repr

/-- The reply loop at editor.rs:330-333: each reply is `try_send`-ed to the
originating session, errors are discarded (`_ =`) and the loop continues. -/
def sendReplies (id : ClientId) (h : ClientHandle) :
    List Payload → ClientHandle × List Effect
  | [] => (h, [])
  | r :: rs =>
    match h.send r with
    | .ok h' =>
      let (h2, es) := sendReplies id h' rs
      (h2, Effect.mailboxSend id r :: es)
    | .error _ =>
      let (h2, es) := sendReplies id h rs
      (h2, Effect.mailboxFull id :: es)

/-- Drop of the whole registry when the server task ends: Rust drops
`data.clients`, which drops every `ClientHandle` it still holds. -/
def dropAllClients (cs : Registry) : List Effect :=
  (cs.map (fun p => p.2.dropEffects)).flatten

/-- One iteration of the Relay Core command loop (editor.rs:302-344),
parametric in the opaque protocol handler.

* `Join`: build the handshake payload from a fresh encoder, send it only if
  non-empty (editor.rs:307-311), then `insert` the handle, dropping any
  replaced handle for the same id (editor.rs:313).
* `Message`: run the handler first (editor.rs:325) — shared state is updated
  and observer broadcasts fire — then `get_mut(&from_id).unwrap()`
  (editor.rs:326): a missing id panics the server task.  On `Ok(replies)`
  each reply is `try_send`-ed back; on `Err` nothing is sent.
* `Leave`: `remove` the record, idempotent (editor.rs:338).
* `Stop`: break the loop (editor.rs:341); the task then drops `ServerData`
  and with it every remaining client handle. -/
def serverStep (ph : Handler) (d : ServerData) :
    ToServerMessage → StepResult
  | .Join ch =>
    let payload := emptyEncoderPayload
    let (ch1, handshakeEffects) :=
      if payload.isEmpty then
        (ch, ([] : List Effect))
      else
        match ch.send payload with
        | .ok ch' => (ch', [Effect.mailboxSend ch.id payload])
        | .error _ => (ch, [Effect.mailboxFull ch.id])
    let dropEffects :=
      match lookupClient d.clients ch1.id with
      | some old => old.dropEffects
      | none => []
    .next { d with clients := insertClient d.clients ch1.id ch1 }
      (handshakeEffects ++ dropEffects)
  | .Message fromId input =>
    let out := ph d.awareness input
    let broadcastEffects := out.broadcasts.map Effect.broadcast
    let d1 : ServerData := { d with awareness := out.state }
    match lookupClient d1.clients fromId with
    | none => .panicked broadcastEffects
    | some ch =>
      match out.replies with
      | .ok replies =>
        let (ch', replyEffects) := sendReplies fromId ch replies
        .next { d1 with clients := updateClient d1.clients fromId ch' }
          (broadcastEffects ++ replyEffects)
      | .error _ => .next d1 broadcastEffects
  | .Leave id =>
    .next { d with clients := removeClient d.clients id } []
  | .Stop =>
    .stopped (dropAllClients d.clients)

/-- Result of running the command loop on a whole list of queued commands. -/
inductive RunResult where
  | running (d : ServerData) (effects : List Effect)
  | stopped (effects : List Effect)
  | panicked (effects : List Effect)
deriving Repr

/-- Fold of `serverStep` over a command list.  After `Stop` breaks the loop
or a panic kills the task, the remaining commands are never processed. -/
def serverRun (ph : Handler) (d : ServerData) :
    List ToServerMessage → RunResult
  | [] => .running d []
  | m :: ms =>
    match serverStep ph d m with
    | .next d' es =>
      match serverRun ph d' ms with
      | .running d2 es' => .running d2 (es ++ es')
      | .stopped es' => .stopped (es ++ es')
      | .panicked es' => .panicked (es ++ es')
    | .stopped es => .stopped es
    | .panicked es => .panicked es

/-! ### The Relay Handle submit path (`ServerHandle::send`, editor.rs:205-214)

The handle submits through the bounded command mpsc channel.  The source
uses the awaiting `Sender::send`, which on a closed channel returns an error
that the code turns into `panic!("Main loop has shut down.")`, and on a full
channel suspends until capacity frees up. -/

/-- State of the command mpsc channel seen by a sender. -/
inductive CommandStream where
  | opened (queue : List ToServerMessage) (capacity : Nat)
  | closed
deriving Repr, DecidableEq

/-- Outcome of one `ServerHandle::send` call. -/
inductive SubmitOutcome where
  | enqueued (queue : List ToServerMessage)
  | waits
  | panicked (msg : String)
deriving Repr, DecidableEq

/-- Model of `ServerHandle::send` (editor.rs:206-210): awaiting
`sender.send(msg)` enqueues when capacity remains, suspends the caller when
the queue is full, and returns an error when the receiver is gone — which
the source converts into a panic with the message below. -/
def ServerHandle.send (c : CommandStream) (msg : ToServerMessage) :
    SubmitOutcome :=
  match c with
  | .closed => .panicked "Main loop has shut down."
  | .opened q cap =>
    if q.length < cap then .enqueued (q ++ [msg]) else .waits

/-! ### The outbound pump (`spawn_client`, editor.rs:148-169)

The `connection_send_loop` task first loops on
`data.broadcast_receiver.recv()` with a `while let Ok(Binary { payload })`,
so it forwards broadcast payloads until that call first returns an error
(`Lagged` or `Closed`), and only after that loop has exited does it start
draining the private mailbox `data.server_receiver`.  The scripts below are
the successive values the two `recv()` calls return; websocket writes are
taken to succeed (a write error only ends the pump earlier). -/

/-- The first loop (editor.rs:150-155):
a `some p` script entry is `Ok(BroadcastMessage::Binary { payload: p })`,
a `none` entry is any `RecvError`; the first `none` exits the loop. -/
def broadcastLoop : List (Option Payload) → List Payload
  | [] => []
  | none :: _ => []
  | some p :: rest => p :: broadcastLoop rest

/-- The second loop (editor.rs:157-168): drains the mailbox until the
channel closes, forwarding every binary payload in order. -/
def mailboxLoop : List Payload → List Payload
  | [] => []
  | m :: ms => m :: mailboxLoop ms

/-- The whole outbound pump body: broadcast loop to exhaustion, then the
mailbox loop.  Returns the payloads written to the websocket in order. -/
def connectionSendLoop (bs : List (Option Payload)) (ms : List Payload) :
    List Payload :=
  broadcastLoop bs ++ mailboxLoop ms

/-! ### Session task structure (`spawn_client`, editor.rs:119-194, and
`ClientHandle::drop`, editor.rs:71-77)

`spawn_client` spawns one supervisor task (`kill_handle`) whose body awaits
the handle, submits `Join`, spawns the two pump tasks with `tokio::spawn`,
waits in `select!` for one of them to finish, aborts the other, and finally
submits `Leave`.  The `ClientHandle` stores only the supervisor
`JoinHandle`; its `Drop` impl calls `abort()` on it.  Aborting a tokio task
cancels that task alone: tasks it spawned with `tokio::spawn` are
independent top-level tasks and keep running once their join handles are
dropped. -/

/-- Program counter of the supervisor task body (editor.rs:119-183). -/
inductive SupervisorStage where
  | awaitHandle
  | sendJoin
  | runSelect
  | sendLeave
  | finished
deriving Repr, DecidableEq

/-- Joint status of the three tasks of one session, plus how many times the
deregistration submit `ToServerMessage::Leave(id)` has been issued. -/
structure SessionTasks where
  supervisorAlive : Bool
  stage : SupervisorStage
  receiveLoopAlive : Bool
  sendLoopAlive : Bool
  leaveSubmitted : Nat
deriving Repr, DecidableEq

/-- Model of `ClientHandle::drop` (editor.rs:71-77) at the task level:
`self.join.abort()` cancels the supervisor task and nothing else.  The
pump tasks are unaffected because they are independent spawned tasks. -/
def dropClientHandleTasks (s : SessionTasks) : SessionTasks :=
  { s with supervisorAlive := false }

/-- Execution steps of one session actor.  Pump tasks may end on their own
(websocket error or close); every supervisor transition requires the
supervisor task to still be alive, matching editor.rs:119-183: the
`select!` aborts both pumps once one has finished, and the `Leave` submit
happens strictly after the `select!` inside the same task. -/
inductive SessionStep : SessionTasks → SessionTasks → Prop where
  | receiveLoopEnds (s : SessionTasks) (h : s.receiveLoopAlive = true) :
      SessionStep s { s with receiveLoopAlive := false }
  | sendLoopEnds (s : SessionTasks) (h : s.sendLoopAlive = true) :
      SessionStep s { s with sendLoopAlive := false }
  | handleArrives (s : SessionTasks) (ha : s.supervisorAlive = true)
      (hs : s.stage = .awaitHandle) :
      SessionStep s { s with stage := .sendJoin }
  | joinIssued (s : SessionTasks) (ha : s.supervisorAlive = true)
      (hs : s.stage = .sendJoin) :
      SessionStep s { s with stage := .runSelect }
  | selectFires (s : SessionTasks) (ha : s.supervisorAlive = true)
      (hs : s.stage = .runSelect)
      (hdone : s.receiveLoopAlive = false ∨ s.sendLoopAlive = false) :
      SessionStep s
        { s with receiveLoopAlive := false, sendLoopAlive := false,
                 stage := .sendLeave }
  | leaveIssued (s : SessionTasks) (ha : s.supervisorAlive = true)
      (hs : s.stage = .sendLeave) :
      SessionStep s
        { s with stage := .finished,
                 leaveSubmitted := s.leaveSubmitted + 1 }

/-- A session supervisor blocked in `select!` with both pumps running: the
state of every healthy connected session. -/
def selectingSession : SessionTasks :=
  { supervisorAlive := true, stage := .runSelect,
    receiveLoopAlive := true, sendLoopAlive := true, leaveSubmitted := 0 }

/-! ### Concrete fixtures used by witness theorems -/

/-- A sample protocol handler: bumps the shared state, lets the observers
publish the input back as a delta, and fails on the empty payload while
echoing any non-empty payload as the single direct reply. -/
def phProbe : Handler := fun s input =>
  { state := s + 1, broadcasts := [input],
    replies := if input.isEmpty then .error () else .ok [input] }

/-- A freshly accepted client with an empty mailbox. -/
def freshClient : ClientHandle :=
  { id := 7, mailbox := [], capacity := 100, supervisor := 3 }

/-- An older client registered under the same id as `freshClient`. -/
def oldClient : ClientHandle :=
  { id := 7, mailbox := [], capacity := 100, supervisor := 11 }

/-- A client whose mailbox already holds `capacity` messages. -/
def fullClient : ClientHandle :=
  { id := 2, mailbox := [[0]], capacity := 1, supervisor := 5 }

/-! ### Registry lemmas -/

/-- A removed id is no longer found. -/
theorem find?_removeClient_self (cs : Registry) (id : ClientId) :
    (removeClient cs id).find? (fun p => p.1 == id) = none := by
  rw [List.find?_eq_none]
  intro x hx
  have hpx := List.of_mem_filter hx
  simpa using hpx

/-- Looking up the id just inserted returns the inserted handle. -/
theorem lookupClient_insert_self (cs : Registry) (id : ClientId)
    (h : ClientHandle) :
    lookupClient (insertClient cs id h) id = some h := by
  unfold lookupClient insertClient
  rw [List.find?_append, find?_removeClient_self]
  simp

/-- Removing the same id twice is the same as removing it once. -/
theorem removeClient_idem (cs : Registry) (id : ClientId) :
    removeClient (removeClient cs id) id = removeClient cs id := by
  unfold removeClient
  rw [List.filter_filter]
  simp

/-- Removing an id that is not in the registry changes nothing. -/
theorem removeClient_of_lookup_none (cs : Registry) (id : ClientId)
    (h : lookupClient cs id = none) :
    removeClient cs id = cs := by
  unfold lookupClient at h
  have hfind : cs.find? (fun p => p.1 == id) = none := by
    cases hf : cs.find? (fun p => p.1 == id) with
    | none => rfl
    | some p => rw [hf] at h; simp at h
  rw [List.find?_eq_none] at hfind
  unfold removeClient
  rw [List.filter_eq_self]
  intro a ha
  simpa using hfind a ha

/-- Key uniqueness survives an insert. -/
theorem regOk_insertClient (cs : Registry) (id : ClientId)
    (h : ClientHandle) (hok : RegOk cs) :
    RegOk (insertClient cs id h) := by
  intro k
  unfold insertClient removeClient
  rw [List.filter_append]
  by_cases hk : k = id
  · subst hk
    have h1 : (cs.filter (fun p => !(p.1 == k))).filter
        (fun p => p.1 == k) = [] := by
      rw [List.filter_eq_nil_iff]
      intro a ha
      have := List.of_mem_filter ha
      simpa using this
    simp [h1]
  · have h2 : (([(id, h)] : Registry)).filter (fun p => p.1 == k) = [] := by
      simp [Ne.symm hk]
    rw [h2, List.append_nil]
    calc ((cs.filter (fun p => !(p.1 == id))).filter
            (fun p => p.1 == k)).length
        ≤ (cs.filter (fun p => p.1 == k)).length :=
          ((List.filter_sublist cs).filter _).length_le
      _ ≤ 1 := hok k

/-! ### Pump and session-task lemmas -/

/-- While the broadcast subscription keeps returning `Ok`, the first loop
forwards every broadcast payload. -/
theorem broadcastLoop_map_some (bs : List Payload) :
    broadcastLoop (bs.map some) = bs := by
  induction bs with
  | nil => rfl
  | cons b rest ih => simp [broadcastLoop, ih]

/-- The mailbox loop forwards the queued payloads in order. -/
theorem mailboxLoop_eq_self (ms : List Payload) : mailboxLoop ms = ms := by
  induction ms with
  | nil => rfl
  | cons m rest ih => simp [mailboxLoop, ih]

/-- One session step from a state whose supervisor task has been aborted
keeps the supervisor dead and cannot change the count of issued `Leave`
submissions: only the supervisor body issues `Leave`. -/
theorem sessionStep_dead_supervisor {s s' : SessionTasks}
    (hstep : SessionStep s s') (hdead : s.supervisorAlive = false) :
    s'.supervisorAlive = false ∧ s'.leaveSubmitted = s.leaveSubmitted := by
  cases hstep <;> simp_all

/-- Along any execution from a state with a dead supervisor, the `Leave`
count never changes. -/
theorem dead_supervisor_invariant {s s' : SessionTasks}
    (h : Relation.ReflTransGen SessionStep s s')
    (hdead : s.supervisorAlive = false) :
    s'.supervisorAlive = false ∧ s'.leaveSubmitted = s.leaveSubmitted := by
  induction h with
  | refl => exact ⟨hdead, rfl⟩
  | tail hab hbc ih =>
    obtain ⟨h1, h2⟩ := ih
    obtain ⟨h3, h4⟩ := sessionStep_dead_supervisor hbc h1
    exact ⟨h3, h4.trans h2⟩

/-! ### Claim theorems -/

/-- C1: the claim states that an `Inbound(id, bytes)` command whose id is
not in the registry is a no-op: no panic, no registry or shared-state
mutation, no reply.  The code instead calls
`data.clients.get_mut(&from_id).unwrap()` at editor.rs:326 after already
running the protocol handler, so a missing id panics the server task — and
the handler has by then already mutated the shared state and let the
observers publish broadcasts.  This theorem evaluates the code at such a
command: the step result is a panic carrying the broadcasts the handler
already produced. -/
theorem inbound_absent_session_panics (ph : Handler) (d : ServerData)
    (id : ClientId) (input : Payload)
    (h : lookupClient d.clients id = none) :
    serverStep ph d (.Message id input) =
      .panicked ((ph d.awareness input).broadcasts.map Effect.broadcast) := by
  unfold serverStep
  simp [h]

/-- C1 witness: a concrete inbound command on the empty registry panics. -/
theorem inbound_absent_session_panics_witness :
    lookupClient (([] : Registry)) 5 = none ∧
    serverStep phProbe { clients := [], awareness := 0 }
        (.Message 5 [1]) = .panicked [Effect.broadcast [1]] :=
  ⟨rfl,
    inbound_absent_session_panics phProbe
      { clients := [], awareness := 0 } 5 [1] rfl⟩

/-- C2 counterexample: the claim states that a submit after the command
stream has closed returns a `CoreUnavailable` failure to the caller and
never panics.  `ServerHandle::send` (editor.rs:206-210) instead panics with
"Main loop has shut down." when the channel send returns an error, shown
here at a concrete command. -/
theorem submit_after_close_panics_cex :
    ServerHandle.send CommandStream.closed ToServerMessage.Stop =
      SubmitOutcome.panicked "Main loop has shut down." := rfl

/-- C2 amended: a submit after the command stream has closed returns
immediately — it is never suspended and never enqueued — but it panics with
"Main loop has shut down." instead of handing the caller a failure value. -/
theorem submit_after_close_panics (msg : ToServerMessage) :
    ServerHandle.send CommandStream.closed msg =
      SubmitOutcome.panicked "Main loop has shut down." ∧
    ServerHandle.send CommandStream.closed msg ≠ SubmitOutcome.waits ∧
    ∀ q, ServerHandle.send CommandStream.closed msg ≠
      SubmitOutcome.enqueued q := by
  refine ⟨rfl, by simp [ServerHandle.send], by simp [ServerHandle.send]⟩

/-- C2 witness: the amended statement evaluated at a concrete command. -/
theorem submit_after_close_panics_witness :
    ServerHandle.send CommandStream.closed (ToServerMessage.Leave 0) =
      SubmitOutcome.panicked "Main loop has shut down." ∧
    ServerHandle.send CommandStream.closed (ToServerMessage.Leave 0) ≠
      SubmitOutcome.waits :=
  ⟨(submit_after_close_panics (ToServerMessage.Leave 0)).1,
   (submit_after_close_panics (ToServerMessage.Leave 0)).2.1⟩

/-- C3: the claim states the outbound pump services the broadcast
subscription and the private mailbox fairly, neither being starved by an
exhaustive drain of the other.  The code (editor.rs:148-168) runs two
sequential loops: for any prefix of `Ok` broadcast receipts `bs` and any
mailbox content `ms`, every broadcast payload is written before any mailbox
payload — the mailbox is serviced only once the broadcast subscription
itself fails, so a healthy broadcast stream starves the mailbox. -/
theorem outbound_pump_drains_broadcast_first (bs ms : List Payload) :
    connectionSendLoop (bs.map some) ms = bs ++ ms := by
  simp [connectionSendLoop, broadcastLoop_map_some, mailboxLoop_eq_self]

/-- C4 counterexample: the claim states that on `Join` the Core immediately
attempts a private handshake send to the new session mailbox.  Processing a
concrete `Join` on the empty registry registers the record but produces an
empty effect list: no mailbox send (successful or failed) is ever
attempted, because the handshake payload built at editor.rs:307-308 from a
fresh encoder is always empty and editor.rs:309 skips empty payloads. -/
theorem join_no_handshake_cex :
    serverStep phProbe { clients := [], awareness := 0 }
        (.Join freshClient) =
      .next { clients := [(7, freshClient)], awareness := 0 } [] := rfl

/-- C4 amended: `Join` registers the record (replacing any record under the
same id), and no handshake is sent: the handshake payload is always the
empty encoding and the Core skips sending empty payloads, so the effects of
`Join` never include a mailbox send or a mailbox-full failure for any
target. -/
theorem join_registers_without_handshake (ph : Handler) (d : ServerData)
    (ch : ClientHandle) :
    ∃ es, serverStep ph d (.Join ch) =
        .next { d with clients := insertClient d.clients ch.id ch } es ∧
      (∀ tgt p, Effect.mailboxSend tgt p ∉ es) ∧
      (∀ tgt, Effect.mailboxFull tgt ∉ es) := by
  cases hl : lookupClient d.clients ch.id with
  | none =>
    refine ⟨[], ?_, by simp, by simp⟩
    unfold serverStep
    simp [emptyEncoderPayload, hl]
  | some old =>
    refine ⟨old.dropEffects, ?_, ?_, ?_⟩
    · unfold serverStep
      simp [emptyEncoderPayload, hl]
    · simp [ClientHandle.dropEffects]
    · simp [ClientHandle.dropEffects]

/-- C4 amended witness: the amended statement at a concrete fresh join. -/
theorem join_registers_without_handshake_witness :
    ∃ es, serverStep phProbe { clients := [], awareness := 0 }
        (.Join freshClient) =
      .next { clients := insertClient [] freshClient.id freshClient,
              awareness := 0 } es ∧
      (∀ tgt p, Effect.mailboxSend tgt p ∉ es) ∧
      (∀ tgt, Effect.mailboxFull tgt ∉ es) :=
  join_registers_without_handshake phProbe
    { clients := [], awareness := 0 } freshClient

/-- C5: the claim states that dropping a `ClientHandle` cancels both pumps
and that the session still submits `Leave(id)` exactly once.  The drop impl
(editor.rs:71-77) aborts only the supervisor task; the two pump loops are
independent `tokio::spawn` tasks and stay alive, and the `Leave` submit at
editor.rs:182 sits at the end of the aborted supervisor body, so from the
dropped state no execution ever submits `Leave` (zero times, not once). -/
theorem drop_handle_skips_teardown :
    (dropClientHandleTasks selectingSession).receiveLoopAlive = true ∧
    (dropClientHandleTasks selectingSession).sendLoopAlive = true ∧
    ∀ s', Relation.ReflTransGen SessionStep
        (dropClientHandleTasks selectingSession) s' →
      s'.leaveSubmitted = 0 := by
  refine ⟨rfl, rfl, ?_⟩
  intro s' h
  exact (dead_supervisor_invariant h rfl).2

/-- C5 witness: the dropped state itself is reachable in zero steps and has
no `Leave` submitted. -/
theorem drop_handle_skips_teardown_witness :
    (dropClientHandleTasks selectingSession).leaveSubmitted = 0 :=
  drop_handle_skips_teardown.2.2 _ Relation.ReflTransGen.refl

/-- C6: `Leave(id)` removes the record; processing it never panics, a
second `Leave(id)` leaves the registry unchanged, and a `Leave(id)` for an
id never joined leaves the state exactly as it was. -/
theorem leave_idempotent (ph : Handler) (d : ServerData) (id : ClientId) :
    serverStep ph d (.Leave id) =
      .next { d with clients := removeClient d.clients id } [] ∧
    serverStep ph { d with clients := removeClient d.clients id }
        (.Leave id) =
      .next { d with clients := removeClient d.clients id } [] ∧
    (lookupClient d.clients id = none →
      serverStep ph d (.Leave id) = .next d []) := by
  refine ⟨rfl, ?_, ?_⟩
  · show StepResult.next
        ⟨removeClient (removeClient d.clients id) id, d.awareness⟩ [] =
      StepResult.next ⟨removeClient d.clients id, d.awareness⟩ []
    rw [removeClient_idem]
  · intro h
    show StepResult.next ⟨removeClient d.clients id, d.awareness⟩ [] =
      StepResult.next d []
    rw [removeClient_of_lookup_none _ _ h]

/-- C6 witness: a `Leave` for a never-joined id on the empty registry is a
visible no-op. -/
theorem leave_idempotent_witness :
    lookupClient (([] : Registry)) 4 = none ∧
    serverStep phProbe { clients := [], awareness := 0 } (.Leave 4) =
      .next { clients := [], awareness := 0 } [] :=
  ⟨rfl, (leave_idempotent phProbe { clients := [], awareness := 0 } 4).2.2 rfl⟩

/-- C7: when an inbound payload from a registered session makes the
protocol handler fail, no reply is placed on any mailbox (the effects are
only the observer broadcasts), the session record stays in the registry
untouched, and any further payload from that session is processed without a
panic. -/
theorem handler_failure_keeps_session (ph : Handler) (d : ServerData)
    (id : ClientId) (input : Payload) (ch : ClientHandle)
    (hl : lookupClient d.clients id = some ch)
    (hf : (ph d.awareness input).replies = .error ()) :
    serverStep ph d (.Message id input) =
      .next { d with awareness := (ph d.awareness input).state }
        ((ph d.awareness input).broadcasts.map Effect.broadcast) ∧
    (∀ tgt p, Effect.mailboxSend tgt p ∉
      (ph d.awareness input).broadcasts.map Effect.broadcast) ∧
    lookupClient ({ d with
      awareness := (ph d.awareness input).state }).clients id = some ch ∧
    ∀ input2, ∃ d2 es,
      serverStep ph { d with awareness := (ph d.awareness input).state }
        (.Message id input2) = .next d2 es := by
  refine ⟨?_, by simp, hl, ?_⟩
  · unfold serverStep
    simp [hl, hf]
  · intro input2
    cases hr : (ph (ph d.awareness input).state input2).replies with
    | ok replies =>
      unfold serverStep
      simp only [hl, hr]
      exact ⟨_, _, rfl⟩
    | error e =>
      unfold serverStep
      simp only [hl, hr]
      exact ⟨_, _, rfl⟩

/-- C7 witness: a failing empty payload from the registered session 2
leaves it registered, sends no reply, and only the observer broadcast is
visible. -/
theorem handler_failure_keeps_session_witness :
    lookupClient [(2, fullClient)] 2 = some fullClient ∧
    (phProbe 0 []).replies = .error () ∧
    serverStep phProbe { clients := [(2, fullClient)], awareness := 0 }
        (.Message 2 []) =
      .next { clients := [(2, fullClient)], awareness := 1 }
        [Effect.broadcast []] := by
  have h := handler_failure_keeps_session phProbe
      { clients := [(2, fullClient)], awareness := 0 } 2 [] fullClient rfl rfl
  exact ⟨rfl, rfl, h.1⟩

/-- C8: a mailbox send to a full queue fails immediately with the
`TrySendError::Full` outcome and drops the message, and when this happens
while the Core delivers a reply, command processing still ends the step
normally — the Core records the failed send and moves on to the next
command, it is never suspended on a slow session. -/
theorem mailbox_full_nonblocking (h : ClientHandle) (msg : Payload)
    (hq : h.capacity ≤ h.mailbox.length) :
    ClientHandle.send h msg = .error () ∧
    ∀ (ph : Handler) (d : ServerData) (id : ClientId) (input : Payload),
      lookupClient d.clients id = some h →
      (ph d.awareness input).replies = .ok [msg] →
      serverStep ph d (.Message id input) =
        .next { clients := updateClient d.clients id h,
                awareness := (ph d.awareness input).state }
          ((ph d.awareness input).broadcasts.map Effect.broadcast ++
            [Effect.mailboxFull id]) := by
  have hsend : ClientHandle.send h msg = .error () := by
    unfold ClientHandle.send
    rw [if_neg (by omega)]
  refine ⟨hsend, ?_⟩
  intro ph d id input hl hr
  unfold serverStep
  simp [hl, hr, sendReplies, hsend]

/-- C8 witness: one more send to the saturated mailbox of session 2 fails
at once and the step still completes normally. -/
theorem mailbox_full_nonblocking_witness :
    fullClient.capacity ≤ fullClient.mailbox.length ∧
    ClientHandle.send fullClient [9] = .error () ∧
    serverStep phProbe { clients := [(2, fullClient)], awareness := 0 }
        (.Message 2 [9]) =
      .next { clients := [(2, fullClient)], awareness := 1 }
        [Effect.broadcast [9], Effect.mailboxFull 2] := by
  have h := mailbox_full_nonblocking fullClient [9] (by decide)
  refine ⟨by decide, h.1, ?_⟩
  exact h.2 phProbe { clients := [(2, fullClient)], awareness := 0 } 2 [9]
    rfl rfl

/-- Commands queued after a `Stop` are never processed: the run of any
command list is unchanged by whatever follows the first `Stop`. -/
theorem serverRun_stop_absorbs (ph : Handler)
    (post : List ToServerMessage) :
    ∀ (pre : List ToServerMessage) (d : ServerData),
      serverRun ph d (pre ++ ToServerMessage.Stop :: post) =
        serverRun ph d (pre ++ [ToServerMessage.Stop]) := by
  intro pre
  induction pre with
  | nil => intro d; rfl
  | cons m ms ih =>
    intro d
    simp only [List.cons_append, serverRun]
    cases serverStep ph d m with
    | next d' es => simp only [List.append_eq, ih d']
    | stopped es => rfl
    | panicked es => rfl

/-- C9: processing `Stop` breaks the command loop into the terminal
`stopped` result, dropping every remaining session record (each drop
decrements the gauge and aborts that session supervisor), and no command
submitted after the `Stop` is ever processed — the observable effects,
broadcasts included, are identical whatever follows the `Stop` in the
queue. -/
theorem stop_is_terminal (ph : Handler) (d : ServerData)
    (pre post : List ToServerMessage) :
    serverStep ph d .Stop = .stopped (dropAllClients d.clients) ∧
    serverRun ph d (pre ++ ToServerMessage.Stop :: post) =
      serverRun ph d (pre ++ [ToServerMessage.Stop]) :=
  ⟨rfl, serverRun_stop_absorbs ph post pre d⟩

/-- C10: a `Join` whose id is already registered silently replaces the old
record — the step drops the replaced handle, which decrements the
connection gauge and aborts the old supervisor task — the new handle is the
one found afterwards, and key uniqueness of the registry is preserved. -/
theorem join_replaces_existing (ph : Handler) (d : ServerData)
    (ch old : ClientHandle)
    (hl : lookupClient d.clients ch.id = some old) :
    serverStep ph d (.Join ch) =
      .next { d with clients := insertClient d.clients ch.id ch }
        [Effect.gaugeDecrement, Effect.abortTask old.supervisor] ∧
    lookupClient (insertClient d.clients ch.id ch) ch.id = some ch ∧
    (RegOk d.clients → RegOk (insertClient d.clients ch.id ch)) := by
  refine ⟨?_, lookupClient_insert_self _ _ _, regOk_insertClient _ _ _⟩
  unfold serverStep
  simp [emptyEncoderPayload, hl, ClientHandle.dropEffects]

/-- C10 witness: re-joining id 7 replaces `oldClient` with `freshClient`,
aborting supervisor task 11 and decrementing the gauge. -/
theorem join_replaces_existing_witness :
    lookupClient [(7, oldClient)] 7 = some oldClient ∧
    serverStep phProbe { clients := [(7, oldClient)], awareness := 0 }
        (.Join freshClient) =
      .next { clients := [(7, freshClient)], awareness := 0 }
        [Effect.gaugeDecrement, Effect.abortTask 11] ∧
    RegOk [(7, freshClient)] := by
  have h := join_replaces_existing phProbe
      { clients := [(7, oldClient)], awareness := 0 } freshClient oldClient
      rfl
  refine ⟨rfl, h.1, ?_⟩
  refine h.2.2 ?_
  intro k
  by_cases hk : (7 : Nat) = k <;> simp [hk]

end YEditor
